import Mathlib

/-!
Verification development for the geo-service repository
(`src/search/SearchEngine.cc`, `src/search/OverpassApiUtils.cc`,
`src/search/OpenMeteoApiUtils.cc`).

The C++ sources are shallowly embedded: pure functions become Lean
functions, the stateful incremental-search session becomes explicit
state passing, external collaborators (HTTP transport, Nominatim
geocoding) become function parameters, and operations whose C++
counterpart can fail an assertion (rapidjson unchecked accessors)
return `Option`, with `none` marking the assertion failure.
-/

namespace GeoService

/-! ## JSON document model

Rapidjson documents are modelled as a plain JSON tree.  A response
string that is empty or does not parse to JSON is modelled as
`Json.null` (rapidjson leaves the document in the null kind after a
parse error, so `IsObject()` is false in both cases and the extractors
take the same early-return path). -/

inductive Json where
  | null : Json
  | bool (b : Bool) : Json
  | num (q : ℚ) : Json
  | str (s : String) : Json
  | arr (elems : List Json) : Json
  | obj (members : List (String × Json)) : Json

def Json.isObj : Json → Bool
  | .obj _ => true
  | _ => false

def Json.isNull : Json → Bool
  | .null => true
  | _ => false

/-- Modelled from the spec: the generic JSON-value access helpers
(`json::Get`) are excluded collaborators; `Get` returns the member of an
object, or JSON null when the member is missing or the value is not an
object (this is the contract the call sites rely on via `IsNull`). -/
def jGet (v : Json) (key : String) : Json :=
  match v with
  | .obj members => (members.lookup key).getD Json.null
  | _ => Json.null

/-- Modelled from the spec: helper `json::GetString` — the string value,
or the empty string for a non-string. -/
def jGetString : Json → String
  | .str s => s
  | _ => ""

/-- Modelled from the spec: helper `json::GetInt64` — the integral value
of an integer JSON number, 0 otherwise. -/
def jGetInt64 : Json → Int
  | .num q => if q.den = 1 then q.num else 0
  | _ => 0

/-- Modelled from the spec: helper `json::GetDouble` — the numeric value,
0 otherwise. -/
def jGetDouble : Json → ℚ
  | .num q => q
  | _ => 0

/-- Rapidjson `operator[](name)` on an object: the member when present;
a missing member fails `RAPIDJSON_ASSERT` (undefined behaviour in
release builds), modelled as `none`. -/
def rawMember (v : Json) (key : String) : Option Json :=
  match v with
  | .obj members => members.lookup key
  | _ => none

/-- Rapidjson `GetArray()`: asserts that the value is an array. -/
def rawGetArray : Json → Option (List Json)
  | .arr elems => some elems
  | _ => none

/-- Rapidjson `GetString()`: asserts that the value is a string. -/
def rawGetString : Json → Option String
  | .str s => some s
  | _ => none

/-! ## OverpassApiUtils.cc — response correlation -/

/-- `overpass::ExtractRelationIds` (OverpassApiUtils.cc, lines 40-58).
An empty input string and a parse failure both leave a non-object
document, returning the empty id list.  For an object document the code
accesses `document["elements"].GetArray()` without checking that the
member exists and is an array; a violation is the modelled assertion
failure (`none`).  Each element contributes its id when its `id` member
is non-null and its `type` member reads `"relation"`. -/
def ExtractRelationIds (doc : Json) : Option (List Int) :=
  if ¬ doc.isObj then
    some []
  else
    match rawMember doc "elements" with
    | none => none
    | some elemsVal =>
      match rawGetArray elemsVal with
      | none => none
      | some elems =>
        some (elems.filterMap fun e =>
          let id := jGet e "id"
          if ¬ id.isNull ∧ jGetString (jGet e "type") = "relation" then
            some (jGetInt64 id)
          else
            none)

structure OsmNode where
  lat : ℚ
  lon : ℚ
  tags : List (String × String)
deriving DecidableEq, Repr

/-- `std::map` insertion used for `node.tags[name] = value`: keeps keys
sorted and unique, overwriting an existing key. -/
def mapInsert : List (String × String) → String → String → List (String × String)
  | [], k, v => [(k, v)]
  | (k0, v0) :: rest, k, v =>
    if k < k0 then (k, v) :: (k0, v0) :: rest
    else if k0 < k then (k0, v0) :: mapInsert rest k v
    else (k, v) :: rest

/-- The tag-copying loop of `ExtractNodes`: each member value is read
with raw `GetString()`, which asserts when the value is not a string. -/
def collectTags : List (String × Json) → List (String × String) → Option (List (String × String))
  | [], acc => some acc
  | (k, v) :: rest, acc =>
    match rawGetString v with
    | none => none
    | some s => collectTags rest (mapInsert acc k s)

/-- The element loop of `ExtractNodes`. -/
def extractNodesLoop : List Json → List OsmNode → Option (List OsmNode)
  | [], acc => some acc
  | e :: rest, acc =>
    if jGetString (jGet e "type") ≠ "node" then
      extractNodesLoop rest acc
    else
      let lat := jGetDouble (jGet e "lat")
      let lon := jGetDouble (jGet e "lon")
      let tagsObj := jGet e "tags"
      match tagsObj with
      | .obj members =>
        match collectTags members [] with
        | none => none
        | some tags => extractNodesLoop rest (acc ++ [⟨lat, lon, tags⟩])
      | _ => extractNodesLoop rest (acc ++ [⟨lat, lon, []⟩])

/-- `overpass::ExtractNodes` (OverpassApiUtils.cc, lines 60-93): same
unchecked `document["elements"].GetArray()` access as
`ExtractRelationIds`, then the element loop. -/
def ExtractNodes (doc : Json) : Option (List OsmNode) :=
  if ¬ doc.isObj then
    some []
  else
    match rawMember doc "elements" with
    | none => none
    | some elemsVal =>
      match rawGetArray elemsVal with
      | none => none
      | some elems => extractNodesLoop elems []

/-! ## OpenMeteoApiUtils.cc — historical date-window rolling

`std::chrono::year_month_day` is modelled as a year/month/day record;
conversions to and from `sys_days` follow the civil-calendar algorithms
specified for `std::chrono` (including the standard's fallback for a
day field past the month's end: `sys_days{y/m/1d} + (d - 1d)`, which the
day-of-year formula below realises because it is linear in the day). -/

structure Ymd where
  year : Int
  month : Nat
  day : Nat
deriving DecidableEq, Repr

/-- Days since 1970-01-01 of a civil date (`std::chrono::sys_days`
conversion of a `year_month_day` with valid year and month). -/
def daysFromCivil (d : Ymd) : Int :=
  let y : Int := if d.month ≤ 2 then d.year - 1 else d.year
  let era : Int := Int.fdiv y 400
  let yoe : Nat := (y - era * 400).toNat
  let mp : Nat := if 2 < d.month then d.month - 3 else d.month + 9
  let doy : Nat := (153 * mp + 2) / 5 + d.day - 1
  let doe : Nat := yoe * 365 + yoe / 4 - yoe / 100 + doy
  era * 146097 + (doe : Int) - 719468

/-- Civil date of a count of days since 1970-01-01 (the
`year_month_day` constructor from `sys_days`). -/
def civilFromDays (z0 : Int) : Ymd :=
  let z : Int := z0 + 719468
  let era : Int := Int.fdiv z 146097
  let doe : Nat := (z - era * 146097).toNat
  let yoe : Nat := (doe - doe / 1460 + doe / 36524 - doe / 146096) / 365
  let y : Int := (yoe : Int) + era * 400
  let doy : Nat := doe - (365 * yoe + yoe / 4 - yoe / 100)
  let mp : Nat := (5 * doy + 2) / 153
  let d : Nat := doy - (153 * mp + 2) / 5 + 1
  let m : Nat := if mp < 10 then mp + 3 else mp - 9
  ⟨if m ≤ 2 then y + 1 else y, m, d⟩

/-- `year_month_day -= std::chrono::years{1}`: only the year changes. -/
def subYear (d : Ymd) : Ymd :=
  ⟨d.year - 1, d.month, d.day⟩

/-- `year_month_day` comparison is lexicographic on (year, month, day),
also for dates that are not `ok()`. -/
def ymdLe (a b : Ymd) : Bool :=
  decide (a.year < b.year) ||
    (decide (a.year = b.year) &&
      (decide (a.month < b.month) ||
        (decide (a.month = b.month) && decide (a.day ≤ b.day))))

def ymdLt (a b : Ymd) : Bool :=
  decide (a.year < b.year) ||
    (decide (a.year = b.year) &&
      (decide (a.month < b.month) ||
        (decide (a.month = b.month) && decide (a.day < b.day))))

/-- The `while (latestDate <= endDate)` loop of `CollectHistoricalRanges`
(OpenMeteoApiUtils.cc, lines 83-87), with explicit fuel; each iteration
lowers `endDate.year` by one, so `(e.year + 1 - latest.year).toNat`
iterations always reach the exit condition. -/
def shiftLoop (latest : Ymd) : Nat → Ymd → Ymd → Ymd × Ymd
  | 0, s, e => (s, e)
  | fuel + 1, s, e =>
    if ymdLe latest e then shiftLoop latest fuel (subYear s) (subYear e)
    else (s, e)

/-- The collection loop of `CollectHistoricalRanges` (lines 90-97):
emit `n` ranges, stepping one calendar year back each time. -/
def collectLoop : Nat → Ymd → Ymd → List (Ymd × Ymd)
  | 0, _, _ => []
  | n + 1, s, e => (s, e) :: collectLoop n (subYear s) (subYear e)

/-- `openmeteo::CollectHistoricalRanges` (OpenMeteoApiUtils.cc,
lines 70-99).  Modelled from the spec: `TimePointToDate` is not under
`src/`, so the reference time is taken directly as its calendar date.
The day-count span of the input range is computed first, the start is
re-anchored to the reference year keeping month and day, the end is the
re-anchored start plus the span, both are shifted back one year while
the reference date is not yet strictly past the end, and then
`max 1 numYears` ranges are collected most-recent-first. -/
def CollectHistoricalRanges (dateRange : Ymd × Ymd) (latestDate : Ymd)
    (numYears : Nat) : List (Ymd × Ymd) :=
  let numDays : Int := daysFromCivil dateRange.2 - daysFromCivil dateRange.1
  let startDate : Ymd := ⟨latestDate.year, dateRange.1.month, dateRange.1.day⟩
  let endDate : Ymd := civilFromDays (daysFromCivil startDate + numDays)
  let fuel : Nat := (endDate.year + 1 - latestDate.year).toNat
  let se := shiftLoop latestDate fuel startDate endDate
  collectLoop (max 1 numYears) se.1 se.2

example : daysFromCivil ⟨1970, 1, 1⟩ = 0 := by decide
example : daysFromCivil ⟨1970, 1, 2⟩ = 1 := by decide
example : daysFromCivil ⟨1969, 12, 31⟩ = -1 := by decide
example : daysFromCivil ⟨2000, 3, 1⟩ = 11017 := by decide
example : civilFromDays 11017 = ⟨2000, 3, 1⟩ := by decide
example : civilFromDays 0 = ⟨1970, 1, 1⟩ := by decide
example : daysFromCivil ⟨2023, 2, 29⟩ = daysFromCivil ⟨2023, 3, 1⟩ := by decide
example :
    CollectHistoricalRanges (⟨2023, 1, 1⟩, ⟨2023, 1, 10⟩) ⟨2024, 6, 1⟩ 1 =
      [(⟨2024, 1, 1⟩, ⟨2024, 1, 10⟩)] := by decide

/-! ## SearchEngine.cc — region-query composition -/

/-- Modelled from the spec: `BoundingBox` (from `ProtoTypes.h`, not under
`src/`) is four ordered scalars — south latitude, west longitude, north
latitude, east longitude — indexed 0..3 in that order. -/
structure BoundingBox where
  south : ℚ
  west : ℚ
  north : ℚ
  east : ℚ
deriving DecidableEq, Repr

/-- `RegionPreferences`: the four feature bits of the `objects` bitmask
and the string-keyed `properties` map. -/
structure RegionPreferences where
  airports : Bool
  peaks : Bool
  seaBeaches : Bool
  saltLakes : Bool
  properties : List (String × String)

/-- Fraction digits of a terminating decimal, most significant first,
stopping at remainder zero (17-digit fuel covers the repertoire of
coordinate literals used by the claims). -/
def fracDigits : Nat → Nat → Nat → String
  | 0, _, _ => ""
  | _, 0, _ => ""
  | fuel + 1, r, den =>
    let r10 := r * 10
    toString (r10 / den) ++ fracDigits fuel (r10 % den) den

/-- Modelled from the spec: `std::format("{}", double)` prints the
shortest round-trip decimal; for the exactly representable terminating
decimals exercised here that is integer part, then a point and the
fraction digits when nonzero. -/
def fmtQ (q : ℚ) : String :=
  let sign := if q < 0 then "-" else ""
  let n := q.num.natAbs
  let ip := n / q.den
  let frac := fracDigits 17 (n % q.den) q.den
  if frac = "" then sign ++ toString ip
  else sign ++ toString ip ++ "." ++ frac

/-- `std::atoi`: optional sign after leading spaces, then a leading run
of digits; 0 when no digits are found. -/
def atoi (s : String) : Int :=
  let chars := s.toList.dropWhile (· = Char.ofNat 32)
  let signed :=
    match chars with
    | c :: rest =>
      if c = Char.ofNat 45 then (true, rest)
      else if c = Char.ofNat 43 then (false, rest)
      else (false, chars)
    | [] => (false, chars)
  let digits := signed.2.takeWhile Char.isDigit
  let mag : Nat := digits.foldl (fun acc c => acc * 10 + (c.toNat - 48)) 0
  if signed.1 then -(mag : Int) else (mag : Int)

def sz_requestHeader : String := "[out:json][timeout:180];"

def sz_regionsTags : String := "[boundary=administrative][admin_level=4]"

/-- The `sz_requestRelationsByNodes` format template (SearchEngine.cc,
lines 26-29) applied to its five arguments. -/
def requestRelationsByNodes (nodes named area tags rel : String) : String :=
  nodes ++ " -> " ++ named ++ ";" ++
    named ++ " is_in -> " ++ area ++ ";" ++
    "rel(pivot" ++ area ++ ")" ++ tags ++ " -> " ++ rel ++ ";"

/-- `sz_nodeAirportsDef` applied to the bounding-box string. -/
def nodeAirportsDef (bbox : String) : String :=
  "(" ++
    "nwr[\"aeroway\"=\"aerodrome\"][\"aerodrome:type\"=\"international\"](" ++ bbox ++ ");" ++
    "nwr[\"aerodrome\"=\"international\"](" ++ bbox ++ ");" ++
    ") -> .outA;" ++
    ".outA > -> .outA;" ++
    "node.outA"

/-- `sz_nodePeaksDef` applied to the bounding-box string and the
formatted height threshold. -/
def nodePeaksDef (bbox height : String) : String :=
  "node[natural=peak][name](" ++ bbox ++
    ")(if: is_number(t[\"ele\"]) && number(t[\"ele\"]) > " ++ height ++ ")"

/-- `sz_nodeSeaBeachesDef` applied to the bounding-box string. -/
def nodeSeaBeachesDef (bbox : String) : String :=
  "way[natural=coastline](" ++ bbox ++ ") -> .coastlines;" ++
    "node(around.coastlines:100)[natural=beach]"

/-- `sz_nodeSaltLakesDef` applied to the bounding-box string. -/
def nodeSaltLakesDef (bbox : String) : String :=
  "wr[natural=water][water=lake][salt=no][name](" ++ bbox ++ ") -> .outL;" ++
    ".outL > -> .outL;" ++
    "node.outL(" ++ bbox ++ ")"

/-- `formatRegionsRequest` (SearchEngine.cc, lines 119-175), embedded
string for string.  The bounding-box text interleaves the box fields in
index order 0, 2, 1, 3 with comma-space separators, exactly as the
`std::format` call does.  Note two literal quirks of the source kept
intact: the salt-lakes branch saves its relation set under `.relS`
(the sea-beaches label), and the trailing intersection appends a
feature's label whenever its bit is set, without re-checking the peaks
height property. -/
def formatRegionsRequest (prefs : RegionPreferences) (boundingBox : BoundingBox) : String :=
  let boundingBoxStr :=
    fmtQ boundingBox.south ++ ", " ++ fmtQ boundingBox.north ++ ", " ++
      fmtQ boundingBox.west ++ ", " ++ fmtQ boundingBox.east
  let request0 := sz_requestHeader
  let request1 :=
    if prefs.airports then
      request0 ++ requestRelationsByNodes (nodeAirportsDef boundingBoxStr)
        ".nodesA" ".areasA" sz_regionsTags ".relA"
    else request0
  let request2 :=
    if prefs.peaks then
      match prefs.properties.lookup "minPeakHeight" with
      | some v =>
        let heightMeters := atoi v
        request1 ++ requestRelationsByNodes (nodePeaksDef boundingBoxStr (toString heightMeters))
          ".nodesP" ".areasP" sz_regionsTags ".relP"
      | none => request1
    else request1
  let request3 :=
    if prefs.seaBeaches then
      request2 ++ requestRelationsByNodes (nodeSeaBeachesDef boundingBoxStr)
        ".nodesS" ".areasS" sz_regionsTags ".relS"
    else request2
  let request4 :=
    if prefs.saltLakes then
      request3 ++ requestRelationsByNodes (nodeSaltLakesDef boundingBoxStr)
        ".nodesL" ".areasL" sz_regionsTags ".relS"
    else request3
  if request4 = sz_requestHeader then ""
  else
    let request5 := request4 ++ "rel"
    let request6 := if prefs.airports then request5 ++ ".relA" else request5
    let request7 := if prefs.peaks then request6 ++ ".relP" else request6
    let request8 := if prefs.seaBeaches then request7 ++ ".relS" else request7
    let request9 := if prefs.saltLakes then request8 ++ ".relL" else request8
    request9 ++ ";out tags;"

/-- `isValidBoundingBox` (SearchEngine.cc, lines 177-183).  Modelled
from the spec: `GetBoundingBoxDimensionsKm` lives in `utils/GeoUtils.h`
outside `src/`, so the box's width and height in kilometers are taken
as inputs; the source compares them against
`sc_maxDimensionKm * 2 + 1 = 2001`. -/
def isValidBoundingBox (widthKm heightKm : ℚ) : Bool :=
  decide (widthKm < 2001) && decide (heightKm < 2001)

/-! ## SearchEngine.cc — incremental region search -/

/-- `nominatim::RelationInfo`, as consumed by `toGeoProtoPlace`. -/
structure RelationInfo where
  osm_id : Int
  name : String
  country : String
  latitude : ℚ
  longitude : ℚ
deriving DecidableEq, Repr

/-- `GeoProtoPlace`, restricted to the fields `toGeoProtoPlace` sets. -/
structure GeoProtoPlace where
  name : String
  country : String
  latitude : ℚ
  longitude : ℚ
deriving DecidableEq, Repr

/-- `toGeoProtoPlace` (SearchEngine.cc, lines 59-67). -/
def toGeoProtoPlace (info : RelationInfo) : GeoProtoPlace :=
  ⟨info.name, info.country, info.latitude, info.longitude⟩

/-- Ordered insertion used to model `std::sort` on the id vector. -/
def insertSorted (x : Int) : List Int → List Int
  | [] => [x]
  | y :: ys => if x ≤ y then x :: y :: ys else y :: insertSorted x ys

/-- `std::sort` on a vector of ids: a sorted rearrangement. -/
def sortInts (xs : List Int) : List Int :=
  xs.foldr insertSorted []

/-- The merge walk of `std::set_difference`, written with explicit fuel
so that it is structurally recursive (every step consumes one element
of one list, so `xs.length + ys.length` fuel is never exhausted). -/
def setDifferenceFuel : Nat → List Int → List Int → List Int
  | _, [], _ => []
  | _, a :: as, [] => a :: as
  | 0, as, _ => as
  | fuel + 1, a :: as, b :: bs =>
    if a < b then a :: setDifferenceFuel fuel as (b :: bs)
    else if b < a then setDifferenceFuel fuel (a :: as) bs
    else setDifferenceFuel fuel as bs

/-- `std::set_difference` on two sorted ranges: elements of the first
range not present in the second, by the merge walk the algorithm
specifies. -/
def setDifference (xs ys : List Int) : List Int :=
  setDifferenceFuel (xs.length + ys.length) xs ys

/-- `std::set<OsmId>::insert` over a range: sorted unique insertion of
each element. -/
def setInsertOne (x : Int) : List Int → List Int
  | [] => [x]
  | y :: ys =>
    if x < y then x :: y :: ys
    else if y < x then y :: setInsertOne x ys
    else y :: ys

def setInsertAll (s : List Int) (xs : List Int) : List Int :=
  xs.foldl (fun acc x => setInsertOne x acc) s

/-- `SearchEngine::findRegions` (SearchEngine.cc, lines 230-281),
embedded with its collaborators as functions: `post` is the Overpass
transport returning the parsed response document, `lookup` is the
Nominatim relation lookup.  The result carries the returned infos, the
session's `processed` set after the call, and the list of transport
requests issued; `none` is the propagated assertion failure of
`ExtractRelationIds`.  The two literal emptiness checks of the source —
`if (relationIds.size()) return {};` and
`if (!relationIdsToProcess.empty()) return {};` — are kept exactly as
written. -/
def findRegions (widthKm heightKm : ℚ) (prefs : RegionPreferences)
    (bbox : BoundingBox) (post : String → Json)
    (lookup : List Int → List RelationInfo) (processed : List Int) :
    Option (List RelationInfo × List Int × List String) :=
  if ¬ isValidBoundingBox widthKm heightKm then
    some ([], processed, [])
  else
    let request := formatRegionsRequest prefs bbox
    if request = "" then
      some ([], processed, [])
    else
      let response := post request
      match ExtractRelationIds response with
      | none => none
      | some relationIds =>
        if relationIds.length ≠ 0 then
          some ([], processed, [request])
        else
          let sorted := sortInts relationIds
          let relationIdsToProcess := setDifference sorted processed
          if relationIdsToProcess ≠ [] then
            some ([], processed, [request])
          else
            let infos := lookup relationIdsToProcess
            if infos = [] then
              some ([], processed, [request])
            else
              some (infos, setInsertAll processed relationIdsToProcess, [request])

/-- One invocation of the incremental handler produced by
`SearchEngine::StartFindRegions` (SearchEngine.cc, lines 210-222): run
`findRegions` against the captured `processed` set and convert each
returned info to a place. -/
def stepFindRegions (widthKm heightKm : ℚ) (prefs : RegionPreferences)
    (bbox : BoundingBox) (post : String → Json)
    (lookup : List Int → List RelationInfo) (processed : List Int) :
    Option (List GeoProtoPlace × List Int × List String) :=
  (findRegions widthKm heightKm prefs bbox post lookup processed).map
    fun r => (r.1.map toGeoProtoPlace, r.2.1, r.2.2)

/-- Substring test used by the scenario claims. -/
def strContains (s pat : String) : Bool :=
  (List.range (s.length + 1)).any fun i =>
    pat.toList.isPrefixOf (s.toList.drop i)

/-! ## Spec-side definitions (for refinement-style claims) -/

/-- Spec-side count, following the claim's words: the number of elements
typed `"relation"` in a query-result element list. -/
def relationTypedCount (elems : List Json) : Nat :=
  (elems.filter fun e => jGetString (jGet e "type") = "relation").length

/-- Spec-side extraction, following the amended claim's words: the ids
of the relation-typed elements that carry a non-null id, in element
order. -/
def specRelationIds (elems : List Json) : List Int :=
  elems.filterMap fun e =>
    if jGetString (jGet e "type") = "relation" ∧ ¬ (jGet e "id").isNull then
      some (jGetInt64 (jGet e "id"))
    else
      none

/-! ## Concrete fixtures used by the claim theorems -/

def bboxA : BoundingBox := ⟨0, 0, 1, 1⟩

/-- The rational 10.5, given in normal form so that kernel reduction
does not need `Nat.gcd`. -/
def q10half : ℚ := ⟨21, 2, by norm_num, by norm_num⟩

/-- The rational 2000.5 in normal form. -/
def q2000half : ℚ := ⟨4001, 2, by norm_num, by norm_num⟩

def bbox910 : BoundingBox := ⟨10, 10, q10half, q10half⟩

def prefsAirports : RegionPreferences := ⟨true, false, false, false, []⟩

def prefsPeaks3000 : RegionPreferences :=
  ⟨false, true, false, false, [("minPeakHeight", "3000")]⟩

def prefsSeaBeaches : RegionPreferences := ⟨false, false, true, false, []⟩

def prefsSaltLakes : RegionPreferences := ⟨false, false, false, true, []⟩

def prefsNone : RegionPreferences := ⟨false, false, false, false, []⟩

def prefsPeaksNoHeight : RegionPreferences :=
  ⟨false, true, false, false, [("other", "1")]⟩

/-- An Overpass response whose element list is one relation with id 7. -/
def resp7 : Json :=
  .obj [("elements", .arr [.obj [("type", .str "relation"), ("id", .num 7)]])]

/-- An Overpass response whose element list is one relation with id 9. -/
def resp9 : Json :=
  .obj [("elements", .arr [.obj [("type", .str "relation"), ("id", .num 9)]])]

def post7 : String → Json := fun _ => resp7

def post9 : String → Json := fun _ => resp9

/-- A geocoding collaborator that resolves relation id 7 to a place. -/
def lookup7 : List Int → List RelationInfo :=
  fun ids => if ids.contains 7 then [⟨7, "Place7", "Country7", 1, 2⟩] else []

/-- A geocoding collaborator that resolves nothing. -/
def lookupNone : List Int → List RelationInfo := fun _ => []

/-! ## Claim theorems -/

set_option maxRecDepth 8000

/-- Claim C1 (code bug evidence): a fixed session invokes `step` twice
with bounding boxes whose query results share relation id 7, and the
geocoding collaborator resolves id 7; the claim says the place for id 7
appears in exactly one of the two outputs.  In the source,
`if (relationIds.size()) return {};` discards every invocation whose
extracted id set is non-empty, so both invocations return the empty
place list and the place appears in neither output. -/
theorem c1_shared_id_place_in_neither_output :
    ExtractRelationIds (post7 (formatRegionsRequest prefsAirports bboxA)) = some [7]
    ∧ lookup7 [7] = [⟨7, "Place7", "Country7", 1, 2⟩]
    ∧ stepFindRegions 1 1 prefsAirports bboxA post7 lookup7 [] =
        some ([], [], [formatRegionsRequest prefsAirports bboxA])
    ∧ stepFindRegions 1 1 prefsAirports bboxA post7 lookup7
        (((stepFindRegions 1 1 prefsAirports bboxA post7 lookup7 []).map
          fun r => r.2.1).getD []) =
        some ([], [], [formatRegionsRequest prefsAirports bboxA]) :=
  ⟨rfl, rfl, rfl, rfl⟩

/-- Claim C2 (counterexample): for the range 2024-02-28..2024-03-01
(a two-day span), reference date 2024-06-01 and count 2, the second
returned window is 2023-02-28..2023-03-01, whose day-count span is 1,
not `range.end − range.start = 2` — the calendar-year shift does not
preserve duration in days across the leap boundary. -/
theorem c2_counterexample :
    CollectHistoricalRanges (⟨2024, 2, 28⟩, ⟨2024, 3, 1⟩) ⟨2024, 6, 1⟩ 2 =
      [(⟨2024, 2, 28⟩, ⟨2024, 3, 1⟩), (⟨2023, 2, 28⟩, ⟨2023, 3, 1⟩)]
    ∧ daysFromCivil ⟨2024, 3, 1⟩ - daysFromCivil ⟨2024, 2, 28⟩ = 2
    ∧ daysFromCivil ⟨2023, 3, 1⟩ - daysFromCivil ⟨2023, 2, 28⟩ = 1 := by
  refine ⟨by decide, by decide, by decide⟩

/-- Claim C3 (counterexample): a bounding box of width 2000.5 km exceeds
2000 km, yet `isValidBoundingBox` (which compares against
`sc_maxDimensionKm * 2 + 1 = 2001`) accepts it, so `findRegions`
proceeds and issues one transport request. -/
theorem c3_counterexample :
    q2000half = 4001/2
    ∧ (2000 : ℚ) < q2000half
    ∧ findRegions q2000half 1 prefsSaltLakes bboxA post9 lookupNone [] =
        some ([], [], [formatRegionsRequest prefsSaltLakes bboxA]) := by
  refine ⟨?_, by decide, by decide⟩
  rw [show (4001 : ℚ) = ((4001 : ℤ) : ℚ) by norm_num,
    show (2 : ℚ) = ((2 : ℕ) : ℚ) by norm_num]
  exact (Rat.num_div_den q2000half).symm

/-- Claim C5 (code bug evidence): with only the salt-lakes category
enabled, the feature sub-query saves its administrative-relation set
under `.relS` — the sea-beaches label — while the final intersection
segment references `.relL`, a label no sub-query ever produced; the
composed query therefore does not intersect exactly the produced
labels. -/
theorem c5_salt_lakes_label_mismatch :
    strContains (formatRegionsRequest prefsSaltLakes bboxA) " -> .relS;" = true
    ∧ strContains (formatRegionsRequest prefsSaltLakes bboxA) " -> .relL" = false
    ∧ strContains (formatRegionsRequest prefsSaltLakes bboxA) "rel.relL;out tags;" = true := by
  refine ⟨by decide, by decide, by decide⟩

/-- Claim C6 (code bug evidence): a `step` invocation whose response
contains the unseen relation id 9 (the set difference against the empty
`ProcessedSet` is `[9]`) returns at the inverted
`if (relationIds.size()) return {};` check, so id 9 is never added to
the `ProcessedSet`, which stays empty — contradicting the claim that
every id of the unseen set is marked processed. -/
theorem c6_extracted_id_not_marked_processed :
    ExtractRelationIds resp9 = some [9]
    ∧ setDifference (sortInts [9]) [] = [9]
    ∧ findRegions 1 1 prefsSeaBeaches bboxA post9 lookupNone [] =
        some ([], [], [formatRegionsRequest prefsSeaBeaches bboxA]) := by
  refine ⟨by decide, by decide, by decide⟩

/-- Claim C8 (code bug evidence): on the well-formed input `{}` — an
object with no `elements` member — both extractors reach the unchecked
`document["elements"]` access, whose missing-member branch fails
`RAPIDJSON_ASSERT` (modelled `none`) instead of returning an empty
result. -/
theorem c8_missing_elements_member_asserts :
    ExtractRelationIds (Json.obj []) = none ∧ ExtractNodes (Json.obj []) = none :=
  ⟨rfl, rfl⟩

/-- Claim C9 (counterexample): for the bounding box
(south 10, west 10, north 10.5, east 10.5) with peaks enabled at
minimum height 3000, the composed query does not contain the text
`10,10,10.5,10.5`: the source formats the box fields in index order
0, 2, 1, 3 with comma-space separators. -/
theorem c9_counterexample :
    strContains (formatRegionsRequest prefsPeaks3000 bbox910) "10,10,10.5,10.5" = false := by
  decide

/-- Claim C9 (amended): for that scenario the composed query embeds the
elevation-filter sub-query with threshold 3000 and the bounding-box
text `10, 10.5, 10, 10.5` (south, north, west, east, comma-space
separated) — which is not the south, west, north, east order the
spatial service documents. -/
theorem c9_amended :
    strContains (formatRegionsRequest prefsPeaks3000 bbox910)
      (nodePeaksDef "10, 10.5, 10, 10.5" "3000") = true
    ∧ strContains (formatRegionsRequest prefsPeaks3000 bbox910) "10, 10.5, 10, 10.5" = true := by
  refine ⟨by decide, by decide⟩

lemma setDifferenceFuel_nil (fuel : Nat) (ys : List Int) :
    setDifferenceFuel fuel [] ys = [] := by
  cases fuel <;> cases ys <;> rfl

/-- Claim C10 (every invocation leaves the session set unchanged): each
completed `findRegions` call returns the `processed` set it was given —
the inverted emptiness checks make the insertion reachable only with an
empty id range. -/
theorem c10_processed_unchanged (widthKm heightKm : ℚ) (prefs : RegionPreferences)
    (bbox : BoundingBox) (post : String → Json) (lookup : List Int → List RelationInfo)
    (processed : List Int) (res : List RelationInfo × List Int × List String)
    (h : findRegions widthKm heightKm prefs bbox post lookup processed = some res) :
    res.2.1 = processed := by
  unfold findRegions at h
  split at h
  · exact (Option.some.inj h) ▸ rfl
  · dsimp only at h
    split at h
    · exact (Option.some.inj h) ▸ rfl
    · split at h
      · exact absurd h (by simp)
      · rename_i relationIds heq
        split at h
        · exact (Option.some.inj h) ▸ rfl
        · rename_i hlen
          have hnil : relationIds = [] := List.length_eq_zero.mp (by omega)
          subst hnil
          rw [show setDifference (sortInts []) processed = []
              from setDifferenceFuel_nil _ _] at h
          rw [if_neg (by simp : ¬ (([] : List Int) ≠ []))] at h
          split at h
          · exact (Option.some.inj h) ▸ rfl
          · exact (Option.some.inj h) ▸ rfl

/-- Witness for C10 at a concrete invocation: a session holding the id 5
invokes `step` with a response carrying relation id 9; the returned set
is still `[5]`. -/
theorem c10_processed_unchanged_witness :
    (([], [5], [formatRegionsRequest prefsSaltLakes bboxA]) :
        List RelationInfo × List Int × List String).2.1 = [5] :=
  c10_processed_unchanged 1 1 prefsSaltLakes bboxA post9 lookupNone [5]
    ([], [5], [formatRegionsRequest prefsSaltLakes bboxA]) (by decide)

/-- Claim C3 (amended): a bounding box whose width or height is at least
2001 km is rejected — `findRegions` returns the empty result, leaves the
session set unchanged, and issues no transport call. -/
theorem c3_amended (widthKm heightKm : ℚ) (prefs : RegionPreferences)
    (bbox : BoundingBox) (post : String → Json) (lookup : List Int → List RelationInfo)
    (processed : List Int) (h : 2001 ≤ widthKm ∨ 2001 ≤ heightKm) :
    findRegions widthKm heightKm prefs bbox post lookup processed =
      some ([], processed, []) := by
  have hv : ¬ (isValidBoundingBox widthKm heightKm = true) := by
    simp only [isValidBoundingBox, Bool.and_eq_true, decide_eq_true_eq, not_and_or, not_lt]
    rcases h with h | h
    · exact Or.inl h
    · exact Or.inr h
  unfold findRegions
  simp [hv]

/-- Witness for C3 (amended) at width 2001 km. -/
theorem c3_amended_witness :
    findRegions 2001 0 prefsSaltLakes bboxA post9 lookupNone [] = some ([], [], []) :=
  c3_amended 2001 0 prefsSaltLakes bboxA post9 lookupNone [] (Or.inl (le_refl 2001))

/-- Claim C4: when no feature category is enabled, or when the only
enabled category is peaks and the `minPeakHeight` property is absent
(the one feature with a required parameter), the composer returns the
empty query and `findRegions` issues no transport call. -/
theorem c4_empty_composition (widthKm heightKm : ℚ) (bbox : BoundingBox)
    (post : String → Json) (lookup : List Int → List RelationInfo)
    (processed : List Int) (prefs : RegionPreferences)
    (h : (prefs.airports = false ∧ prefs.peaks = false ∧
            prefs.seaBeaches = false ∧ prefs.saltLakes = false)
       ∨ (prefs.airports = false ∧ prefs.peaks = true ∧
            prefs.seaBeaches = false ∧ prefs.saltLakes = false ∧
            prefs.properties.lookup "minPeakHeight" = none)) :
    formatRegionsRequest prefs bbox = ""
    ∧ findRegions widthKm heightKm prefs bbox post lookup processed =
        some ([], processed, []) := by
  have hreq : formatRegionsRequest prefs bbox = "" := by
    rcases h with ⟨h1, h2, h3, h4⟩ | ⟨h1, h2, h3, h4, h5⟩ <;>
      simp [formatRegionsRequest, h1, h2, h3, h4, *]
  refine ⟨hreq, ?_⟩
  unfold findRegions
  by_cases hv : isValidBoundingBox widthKm heightKm = true
  · simp [hv, hreq]
  · simp [hv]

/-- Witness for C4: only peaks enabled, no `minPeakHeight` property. -/
theorem c4_empty_composition_witness :
    formatRegionsRequest prefsPeaksNoHeight bboxA = ""
    ∧ findRegions 1 1 prefsPeaksNoHeight bboxA post9 lookupNone [] =
        some ([], [], []) :=
  c4_empty_composition 1 1 bboxA post9 lookupNone [] prefsPeaksNoHeight
    (Or.inr ⟨rfl, rfl, rfl, rfl, by decide⟩)

/-- Claim C7 (counterexample): a document whose single element is typed
`"relation"` but carries no id yields zero ids, not the one id per
relation-typed element the claim requires. -/
theorem c7_counterexample :
    ExtractRelationIds
        (Json.obj [("elements", Json.arr [Json.obj [("type", Json.str "relation")]])]) =
      some []
    ∧ relationTypedCount [Json.obj [("type", Json.str "relation")]] = 1 := by
  refine ⟨by decide, by decide⟩

/-- Claim C7 (amended): over any element array, `ExtractRelationIds`
returns exactly the ids of the relation-typed elements that carry a
non-null id, in element order. -/
theorem c7_amended (elems : List Json) :
    ExtractRelationIds (Json.obj [("elements", Json.arr elems)]) =
      some (specRelationIds elems) := by
  have hred : ExtractRelationIds (Json.obj [("elements", Json.arr elems)]) =
      some (elems.filterMap fun e =>
        if ¬ (jGet e "id").isNull ∧ jGetString (jGet e "type") = "relation" then
          some (jGetInt64 (jGet e "id"))
        else none) := rfl
  have hfun : (fun e : Json =>
        if ¬ (jGet e "id").isNull ∧ jGetString (jGet e "type") = "relation" then
          some (jGetInt64 (jGet e "id"))
        else none)
      = (fun e : Json =>
        if jGetString (jGet e "type") = "relation" ∧ ¬ (jGet e "id").isNull then
          some (jGetInt64 (jGet e "id"))
        else none) := by
    funext e
    by_cases h1 : (jGet e "id").isNull <;>
      by_cases h2 : jGetString (jGet e "type") = "relation" <;>
        simp [h1, h2]
  rw [hred, specRelationIds, hfun]

lemma ymdLe_false_lt {a b : Ymd} (h : ymdLe a b = false) : ymdLt b a = true := by
  simp only [ymdLe, Bool.or_eq_false_iff, Bool.and_eq_false_iff,
    decide_eq_false_iff_not, not_lt] at h
  simp only [ymdLt, Bool.or_eq_true, Bool.and_eq_true, decide_eq_true_eq]
  omega

lemma ymdLt_subYear {e l : Ymd} (h : ymdLt e l = true) : ymdLt (subYear e) l = true := by
  simp only [ymdLt, Bool.or_eq_true, Bool.and_eq_true, decide_eq_true_eq, subYear] at *
  omega

lemma shiftLoop_end_lt (latest : Ymd) :
    ∀ fuel s e, (e.year + 1 - latest.year).toNat ≤ fuel →
      ymdLt (shiftLoop latest fuel s e).2 latest = true := by
  intro fuel
  induction fuel with
  | zero =>
    intro s e h
    have : e.year < latest.year := by omega
    simp only [shiftLoop, ymdLt, Bool.or_eq_true, decide_eq_true_eq]
    exact Or.inl this
  | succ n ih =>
    intro s e h
    rw [shiftLoop]
    by_cases hg : ymdLe latest e = true
    · rw [if_pos hg]
      apply ih
      have hy : latest.year ≤ e.year := by
        simp only [ymdLe, Bool.or_eq_true, Bool.and_eq_true, decide_eq_true_eq] at hg
        omega
      simp only [subYear]
      omega
    · rw [if_neg hg]
      exact ymdLe_false_lt (Bool.eq_false_iff.mpr hg)

lemma collectLoop_length (n : Nat) : ∀ s e, (collectLoop n s e).length = n := by
  induction n with
  | zero => intro s e; rfl
  | succ m ih => intro s e; simp [collectLoop, ih]

lemma collectLoop_mem_lt (latest : Ymd) (n : Nat) :
    ∀ s e, ymdLt e latest = true →
      ∀ w ∈ collectLoop n s e, ymdLt w.2 latest = true := by
  induction n with
  | zero => intro s e _ w hw; simp [collectLoop] at hw
  | succ m ih =>
    intro s e he w hw
    simp only [collectLoop, List.mem_cons] at hw
    rcases hw with rfl | hw
    · exact he
    · exact ih (subYear s) (subYear e) (ymdLt_subYear he) w hw

lemma collectLoop_get_succ (n : Nat) :
    ∀ s e i (h1 : i + 1 < (collectLoop n s e).length)
      (h0 : i < (collectLoop n s e).length),
      (collectLoop n s e).get ⟨i + 1, h1⟩ =
        (subYear ((collectLoop n s e).get ⟨i, h0⟩).1,
         subYear ((collectLoop n s e).get ⟨i, h0⟩).2) := by
  induction n with
  | zero =>
    intro s e i h1 h0
    simp [collectLoop] at h0
  | succ m ih =>
    intro s e i h1 h0
    match i with
    | 0 =>
      have hm : 0 < m := by
        have := h1
        simp [collectLoop, collectLoop_length] at this
        omega
      match m, hm with
      | k + 1, _ => rfl
    | j + 1 =>
      have h1m : j + 1 + 1 ≤ (collectLoop m (subYear s) (subYear e)).length := by
        have := h1
        simp only [collectLoop, List.length_cons] at this
        omega
      have h0m : j + 1 ≤ (collectLoop m (subYear s) (subYear e)).length := by
        omega
      exact ih (subYear s) (subYear e) j h1m h0m

/-- Claim C2 (amended): `CollectHistoricalRanges` returns exactly
`max 1 count` windows, every window's end is strictly before the
reference date (in calendar order), and each successive window is
exactly one calendar year earlier than the previous one on both
endpoints.  The original claim's day-count-duration preservation is
dropped: a calendar-year shift does not preserve the span in days
across leap boundaries (see the counterexample). -/
theorem c2_amended (dateRange : Ymd × Ymd) (latestDate : Ymd) (numYears : Nat) :
    (CollectHistoricalRanges dateRange latestDate numYears).length = max 1 numYears
    ∧ (∀ w ∈ CollectHistoricalRanges dateRange latestDate numYears,
        ymdLt w.2 latestDate = true)
    ∧ (∀ i (h1 : i + 1 < (CollectHistoricalRanges dateRange latestDate numYears).length)
        (h0 : i < (CollectHistoricalRanges dateRange latestDate numYears).length),
        (CollectHistoricalRanges dateRange latestDate numYears).get ⟨i + 1, h1⟩ =
          (subYear ((CollectHistoricalRanges dateRange latestDate numYears).get ⟨i, h0⟩).1,
           subYear ((CollectHistoricalRanges dateRange latestDate numYears).get ⟨i, h0⟩).2)) := by
  refine ⟨collectLoop_length _ _ _, ?_, ?_⟩
  · intro w hw
    apply collectLoop_mem_lt latestDate (max 1 numYears) _ _ _ w hw
    exact shiftLoop_end_lt latestDate _ _ _ (le_refl _)
  · intro i h1 h0
    exact collectLoop_get_succ _ _ _ i h1 h0

/-- Witness for C2 (amended): for the range 2023-01-01..2023-01-10,
reference 2024-06-01 and count 3, the second window is exactly one
calendar year before the first. -/
theorem c2_amended_witness :
    (CollectHistoricalRanges (⟨2023, 1, 1⟩, ⟨2023, 1, 10⟩) ⟨2024, 6, 1⟩ 3).get
        ⟨1, by decide⟩ =
      (subYear (((CollectHistoricalRanges (⟨2023, 1, 1⟩, ⟨2023, 1, 10⟩) ⟨2024, 6, 1⟩ 3).get
          ⟨0, by decide⟩).1),
       subYear (((CollectHistoricalRanges (⟨2023, 1, 1⟩, ⟨2023, 1, 10⟩) ⟨2024, 6, 1⟩ 3).get
          ⟨0, by decide⟩).2)) :=
  (c2_amended (⟨2023, 1, 1⟩, ⟨2023, 1, 10⟩) ⟨2024, 6, 1⟩ 3).2.2 0 (by decide) (by decide)

end GeoService
